import Mathlib

/-!
Shallow embedding of the autonomous-dynamic-pricing-suite repository:
`src/dynamic_pricing_collector.py` (class `DynamicPricingCollector`) and
`src/dynamic_pricing_model.py` (class `DynamicPricingModel`).

The HTTP transport is the environment: each attempt index is mapped to what
`requests.get` did on that attempt (a response with a status code and a body
whose JSON parse may fail, or a raised transport exception).  Each fetcher is
embedded as a function from that environment to its Python return value
(`Option PyDict`) together with the trace of observable events of the retry
loop: one `call` per `requests.get`, the `logger.error` branches, and every
`time.sleep`.
-/

/-- JSON values as delivered by the three HTTP APIs and stored in Python
dicts.  Numbers are rationals, which makes the NumPy mean arithmetic of the
claims exact. -/
inductive Json where
  | str : String → Json
  | num : Rat → Json
  | arr : List Json → Json
  | obj : List (String × Json) → Json

/-- A Python dict with string keys, as built by the collector methods and
consumed by the model. -/
abbrev PyDict := List (String × Json)

/-- The Python exceptions the collector code can raise and catch. -/
inductive PyErr where
  | keyError : String → PyErr
  | typeError : String → PyErr
  | requestError : String → PyErr
  | jsonDecodeError : String → PyErr
  | valueError : String → PyErr
deriving DecidableEq

/-- Python subscript `data[k]` on a parsed JSON body: `KeyError` on a missing
dict key, `TypeError` when the value is not a dict. -/
def jGet : Json → String → Except PyErr Json
  | .obj fields, k =>
    match fields.lookup k with
    | some v => .ok v
    | none => .error (.keyError k)
  | _, _ => .error (.typeError "not subscriptable")

/-- Numeric contents of a JSON array, when every element is a number. -/
def asNums : List Json → Option (List Rat)
  | [] => some []
  | .num q :: rest => (asNums rest).map (q :: ·)
  | _ => none

/-- `np.mean` applied to a JSON value: the arithmetic mean of a numeric array
(a bare number is its own mean); `TypeError` otherwise.  NumPy returns NaN for
an empty array; `Rat` has no NaN and no claim depends on that value, so the
empty case evaluates to `0 / 0 = 0`. -/
def npMean : Json → Except PyErr Rat
  | .num q => .ok q
  | .arr js =>
    match asNums js with
    | some qs => .ok (qs.sum / (qs.length : Rat))
    | none => .error (.typeError "mean of non-numeric data")
  | _ => .error (.typeError "mean of non-numeric data")

/-- What `requests.get` did on one attempt: a response carrying a status code
and the result of parsing its body (`response.json()` may raise), or a raised
transport-level exception. -/
inductive HttpAttempt where
  | resp : Nat → Except String Json → HttpAttempt
  | err : String → HttpAttempt

/-- Observable events of one run of a collector retry loop. -/
inductive FetchEvent where
  | call : FetchEvent
  | badStatus : Nat → FetchEvent
  | exceptionCaught : PyErr → FetchEvent
  | sleep : Nat → FetchEvent
deriving DecidableEq

/-- The record built by `get_market_data` on a 200 response, evaluating the
dict literal of the source left to right: `data['trend']`, `data['volume']`,
then the timestamp. -/
def marketExtract (now : String) (data : Json) : Except PyErr PyDict :=
  match jGet data "trend" with
  | .error e => .error e
  | .ok t =>
    match jGet data "volume" with
    | .error e => .error e
    | .ok v => .ok [("market_trend", t), ("volume", v), ("timestamp", .str now)]

/-- The record built by `get_customer_behavior` on a 200 response:
`data['trend']`, `data['engagement_score']`, then the timestamp. -/
def customerExtract (now : String) (data : Json) : Except PyErr PyDict :=
  match jGet data "trend" with
  | .error e => .error e
  | .ok t =>
    match jGet data "engagement_score" with
    | .error e => .error e
    | .ok s => .ok [("behavior_trend", t), ("engagement", s), ("timestamp", .str now)]

/-- The record built by `get_cost_data` on a 200 response: `data['trend']`,
`np.mean(data['costs'])`, then the timestamp. -/
def costExtract (now : String) (data : Json) : Except PyErr PyDict :=
  match jGet data "trend" with
  | .error e => .error e
  | .ok t =>
    match jGet data "costs" with
    | .error e => .error e
    | .ok cs =>
      match npMean cs with
      | .error e => .error e
      | .ok m => .ok [("cost_trend", t), ("average_cost", .num m), ("timestamp", .str now)]

/-- The events of the `except Exception` handler at attempt `i`: the caught
exception is logged, and `time.sleep(backoff_factor * 2 ** attempt)` runs only
when `attempt < retries - 1`.  The non-200 branch of the loop never reaches
this handler. -/
def exceptEvents (r b i : Nat) (e : PyErr) : List FetchEvent :=
  if i < r - 1 then [.exceptionCaught e, .sleep (b * 2 ^ i)]
  else [.exceptionCaught e]

/-- The retry loop shared by the three collector methods, at attempt `i` with
`fuel` attempts remaining (a fetcher starts at `i = 0`, `fuel = retries`).
Per attempt: one external call; on status 200 the body is parsed and the
record built inside the `try`, so a parse failure or missing field lands in
the `except` handler exactly like a transport error; on any other status the
loop logs `API returned {code}` and goes straight to the next attempt; when
the loop ends the method returns `None`. -/
def fetchGo (r b : Nat) (extract : String → Json → Except PyErr PyDict)
    (env : Nat → HttpAttempt) (now : String) :
    Nat → Nat → Option PyDict × List FetchEvent
  | _, 0 => (none, [])
  | i, fuel + 1 =>
    match env i with
    | .err msg =>
      let rest := fetchGo r b extract env now (i + 1) fuel
      (rest.1, .call :: (exceptEvents r b i (.requestError msg) ++ rest.2))
    | .resp status body =>
      if status = 200 then
        match body with
        | .error msg =>
          let rest := fetchGo r b extract env now (i + 1) fuel
          (rest.1, .call :: (exceptEvents r b i (.jsonDecodeError msg) ++ rest.2))
        | .ok data =>
          match extract now data with
          | .ok record => (some record, [.call])
          | .error e =>
            let rest := fetchGo r b extract env now (i + 1) fuel
            (rest.1, .call :: (exceptEvents r b i e ++ rest.2))
      else
        let rest := fetchGo r b extract env now (i + 1) fuel
        (rest.1, .call :: .badStatus status :: rest.2)

/-- `self.retries` set in `DynamicPricingCollector.__init__`. -/
def retries : Nat := 3

/-- `self.backoff_factor` set in `DynamicPricingCollector.__init__`. -/
def backoff_factor : Nat := 1

/-- `DynamicPricingCollector.get_market_data`, over the market API
environment; `now` supplies `datetime.now().isoformat()`. -/
def get_market_data (env : Nat → HttpAttempt) (now : String) :
    Option PyDict × List FetchEvent :=
  fetchGo retries backoff_factor marketExtract env now 0 retries

/-- `DynamicPricingCollector.get_customer_behavior`. -/
def get_customer_behavior (env : Nat → HttpAttempt) (now : String) :
    Option PyDict × List FetchEvent :=
  fetchGo retries backoff_factor customerExtract env now 0 retries

/-- `DynamicPricingCollector.get_cost_data`. -/
def get_cost_data (env : Nat → HttpAttempt) (now : String) :
    Option PyDict × List FetchEvent :=
  fetchGo retries backoff_factor costExtract env now 0 retries

/-- The three data sources of the collector. -/
inductive Source where
  | market
  | customer
  | cost
deriving DecidableEq

/-- The record shape each source method builds on a 200 response. -/
def sourceExtract : Source → String → Json → Except PyErr PyDict
  | .market => marketExtract
  | .customer => customerExtract
  | .cost => costExtract

/-- The fetcher method of each source. -/
def fetchOf : Source → (Nat → HttpAttempt) → String → Option PyDict × List FetchEvent
  | .market => get_market_data
  | .customer => get_customer_behavior
  | .cost => get_cost_data

/-- Number of external calls recorded in a trace. -/
def countCalls : List FetchEvent → Nat
  | [] => 0
  | .call :: rest => countCalls rest + 1
  | _ :: rest => countCalls rest

/-- `true` when a trace contains no suspension at all. -/
def noSleep : List FetchEvent → Bool
  | [] => true
  | .sleep _ :: _ => false
  | _ :: rest => noSleep rest

/-- `true` when the attempt was an HTTP response with a status other than
200. -/
def isNon200 : HttpAttempt → Bool
  | .resp c _ => !(c = 200 : Bool)
  | .err _ => false

/-- Spec-side error taxonomy `FetchFailureKind` of the Fetcher boundary. -/
inductive FetchFailureKind where
  | badStatus : Nat → FetchFailureKind
  | transport : String → FetchFailureKind
  | malformed : String → FetchFailureKind
deriving DecidableEq

/-- The message carried by a caught Python exception. -/
def pyMsg : PyErr → String
  | .keyError k => k
  | .typeError m => m
  | .requestError m => m
  | .jsonDecodeError m => m
  | .valueError m => m

/-- Spec-side classification of one recorded failure event: a logged non-200
status is `BadStatus`, a caught `requests` exception is `Transport`, and a
caught parse or field-access failure of a 200 body is `Malformed`. -/
def eventKind : FetchEvent → Option FetchFailureKind
  | .badStatus c => some (.badStatus c)
  | .exceptionCaught (.requestError m) => some (.transport m)
  | .exceptionCaught e => some (.malformed (pyMsg e))
  | _ => none

/-- Spec-side `FetchOutcome`: the terminal state of one fetcher run. -/
inductive FetchOutcome where
  | success : PyDict → FetchOutcome
  | failure : Option FetchFailureKind → FetchOutcome

/-- Spec-side view of a fetcher run as a `FetchOutcome`: a returned record is
`Success`; a `None` return is `Failure` carrying the last recorded failure
kind. -/
def finalOutcome (run : Option PyDict × List FetchEvent) : FetchOutcome :=
  match run.1 with
  | some record => .success record
  | none => .failure (run.2.filterMap eventKind).getLast?

/-- The `if market:` / `if customer:` / `if cost:` guards of
`collect_and_process`: `None` and the empty dict are falsy, so a source
contributes its key only when its fetcher returned a non-empty record. -/
def entryIf (key : String) : Option PyDict → List (String × PyDict)
  | some [] => []
  | some (e :: rest) => [(key, e :: rest)]
  | none => []

/-- The `combined_data` dict built inside the `try` of
`collect_and_process`, with keys inserted in source order: market, customer,
cost.  One `now` stands for the per-call timestamps. -/
def combined_data (envM envC envK : Nat → HttpAttempt) (now : String) :
    List (String × PyDict) :=
  entryIf "market" (get_market_data envM now).1 ++
  entryIf "customer" (get_customer_behavior envC now).1 ++
  entryIf "cost" (get_cost_data envK now).1

/-- `DynamicPricingCollector.collect_and_process`: runs the three fetchers and
returns `combined_data`.  The fetchers catch every exception inside their own
retry loops and the dict operations of the body cannot raise, so the
`except` branch (`return None`) is unreachable and `none` is never
produced. -/
def collect_and_process (envM envC envK : Nat → HttpAttempt) (now : String) :
    Option (List (String × PyDict)) :=
  some (combined_data envM envC envK now)

/-- Python truthiness of the `data` value tested by the `__main__` block:
`None` and the empty dict are falsy. -/
def pyTruthySnap : Option (List (String × PyDict)) → Bool
  | none => false
  | some [] => false
  | some (_ :: _) => true

/-- The `__main__` block of the collector: logs success when
`collect_and_process` returned a truthy value, a collection failure
otherwise. -/
def mainReport (data : Option (List (String × PyDict))) : String :=
  if pyTruthySnap data then "Data collection successful"
  else "Failed to collect data"

/-- One `if key in data: processed[out] = data[key][sub]` block of
`DynamicPricingModel._process_input_data`; the inner subscript raises
`KeyError` when the sub-field is missing. -/
def extractStep (src sub out : String) (data : List (String × PyDict))
    (acc : List (String × Json)) : Except PyErr (List (String × Json)) :=
  match data.lookup src with
  | some d =>
    match d.lookup sub with
    | some v => .ok (acc ++ [(out, v)])
    | none => .error (.keyError sub)
  | none => .ok acc

/-- The `try` body of `_process_input_data`: the three extraction blocks run
in order market, customer, cost. -/
def processBody (data : List (String × PyDict)) :
    Except PyErr (List (String × Json)) :=
  match extractStep "market" "trend" "market_trend" data [] with
  | .error e => .error e
  | .ok p1 =>
    match extractStep "customer" "engagement" "engagement" data p1 with
    | .error e => .error e
    | .ok p2 => extractStep "cost" "average_cost" "average_cost" data p2

/-- `DynamicPricingModel._process_input_data`: the `except KeyError` clause
re-raises as `ValueError("Invalid data format")`; any other exception would
propagate unchanged. -/
def _process_input_data (data : List (String × PyDict)) :
    Except PyErr (List (String × Json)) :=
  match processBody data with
  | .ok p => .ok p
  | .error (.keyError _) => .error (.valueError "Invalid data format")
  | .error e => .error e

/-- Spec-side: one Features entry, present exactly when the projected value
is. -/
def projEntry (out : String) : Option Json → List (String × Json)
  | some v => [(out, v)]
  | none => []

/-- Spec-side: the value a Snapshot holds under source key `src`, sub-field
`sub`, when both are present. -/
def subField (data : List (String × PyDict)) (src sub : String) : Option Json :=
  (data.lookup src).bind (·.lookup sub)

/-- Spec-side: a Features set assembled from the three optional projected
values, in the order the Normalizer emits them. -/
def projList (m c k : Option Json) : List (String × Json) :=
  projEntry "market_trend" m ++ projEntry "engagement" c ++ projEntry "average_cost" k

/-- Spec-side: the pure projection of whatever subset of
`{market, customer, cost}` is present in the Snapshot, with no defaults for
absent sources. -/
def specProjection (data : List (String × PyDict)) : List (String × Json) :=
  projList (subField data "market" "trend") (subField data "customer" "engagement")
    (subField data "cost" "average_cost")

/-- Spec-side: a present source payload carries its expected sub-field; an
absent source imposes nothing. -/
def hasSubIfPresent (data : List (String × PyDict)) (src sub : String) : Bool :=
  match data.lookup src with
  | some d => (d.lookup sub).isSome
  | none => true

/-- Spec-side: the permissive validation policy of the Normalizer — every
present source payload must carry its expected sub-field. -/
def specValidationOk (data : List (String × PyDict)) : Bool :=
  hasSubIfPresent data "market" "trend" && hasSubIfPresent data "customer" "engagement" &&
    hasSubIfPresent data "cost" "average_cost"

/-- Modelled from the spec: `normalize_to_snapshot` is named in the testable
properties but absent from src; per the Snapshot/Features data model it
re-wraps each present Features field under its source key with the sub-field
the Normalizer reads. -/
def snapEntry (src sub : String) : Option Json → List (String × PyDict)
  | some v => [(src, [(sub, v)])]
  | none => []

/-- Modelled from the spec: convert a Features set back into a Snapshot,
one source entry per present Features field. -/
def normalize_to_snapshot (f : List (String × Json)) : List (String × PyDict) :=
  snapEntry "market" "trend" (f.lookup "market_trend") ++
  snapEntry "customer" "engagement" (f.lookup "engagement") ++
  snapEntry "cost" "average_cost" (f.lookup "average_cost")

/-- Market API of the end-to-end run: 200 with trend "up", volume 1000. -/
def envMarketUp : Nat → HttpAttempt := fun _ =>
  .resp 200 (.ok (.obj [("trend", .str "up"), ("volume", .num 1000)]))

/-- Customer API of the end-to-end run: every attempt times out. -/
def envCustomerTimeout : Nat → HttpAttempt := fun _ => .err "timed out"

/-- Cost API of the end-to-end run: 200 with trend "stable", costs
[10, 20, 30]. -/
def envCostStable : Nat → HttpAttempt := fun _ =>
  .resp 200 (.ok (.obj [("trend", .str "stable"),
    ("costs", .arr [.num 10, .num 20, .num 30])]))

/-- An environment on which every attempt of every source fails (status
500). -/
def envAllBad : Nat → HttpAttempt := fun _ => .resp 500 (.error "boom")

/-- Spec-side: how one attempt resolves — a built record, an unexpected
status, or a raised exception (transport failure, unparseable 200 body, or a
record-builder failure such as a missing field). -/
inductive AttemptOutcome where
  | success : PyDict → AttemptOutcome
  | badStatus : Nat → AttemptOutcome
  | exc : PyErr → AttemptOutcome

/-- Spec-side: classify one attempt of a fetcher with record builder
`extract`. -/
def attemptOutcome (extract : String → Json → Except PyErr PyDict)
    (now : String) : HttpAttempt → AttemptOutcome
  | .err m => .exc (.requestError m)
  | .resp status body =>
    if status = 200 then
      match body with
      | .error m => .exc (.jsonDecodeError m)
      | .ok data =>
        match extract now data with
        | .ok record => .success record
        | .error e => .exc e
    else .badStatus status

/-- Spec-side (amended backoff schedule): attempt `i` always issues one call;
a success ends the run; an unexpected status logs and retries immediately
with no delay; a raised exception logs and, only while attempts remain
(`i < r - 1`), sleeps exactly `b * 2 ^ i` before the next attempt; no delay
ever precedes the first attempt. -/
def specSchedule (r b : Nat) (extract : String → Json → Except PyErr PyDict)
    (env : Nat → HttpAttempt) (now : String) : Nat → Nat → List FetchEvent
  | _, 0 => []
  | i, fuel + 1 =>
    match attemptOutcome extract now (env i) with
    | .success _ => [.call]
    | .badStatus c => .call :: .badStatus c :: specSchedule r b extract env now (i + 1) fuel
    | .exc e =>
      if i < r - 1 then
        .call :: .exceptionCaught e :: .sleep (b * 2 ^ i) ::
          specSchedule r b extract env now (i + 1) fuel
      else
        .call :: .exceptionCaught e :: specSchedule r b extract env now (i + 1) fuel

/-- A mixed market run: a 200 body missing its field, then a bad status,
then an unparseable 200 body. -/
def envFieldThenBad : Nat → HttpAttempt := fun i =>
  if i = 0 then .resp 200 (.ok (.obj []))
  else if i = 1 then .resp 500 (.error "html")
  else .resp 200 (.error "bad json")

/-- A mixed market run: a bad status, then a transport error, then another
bad status. -/
def envBadThenTimeout : Nat → HttpAttempt := fun i =>
  if i = 0 then .resp 500 (.error "html")
  else if i = 1 then .err "timeout"
  else .resp 502 (.error "html")

/-- One extraction block succeeds exactly when its source, if present,
carries the sub-field, and then appends exactly the projected entry. -/
theorem extractStep_eq (src sub out : String) (data : List (String × PyDict))
    (acc : List (String × Json)) :
    extractStep src sub out data acc =
      if hasSubIfPresent data src sub then
        Except.ok (acc ++ projEntry out (subField data src sub))
      else Except.error (PyErr.keyError sub) := by
  unfold extractStep hasSubIfPresent subField projEntry
  rcases hd : data.lookup src with _ | d
  · simp [hd]
  · rcases hv : d.lookup sub with _ | v <;> simp [hd, hv]

/-- `_process_input_data` equals the permissive spec-side Normalizer: the
projection of the present subset on success, `ValueError` exactly when a
present payload lacks its sub-field. -/
theorem process_eq_spec (data : List (String × PyDict)) :
    _process_input_data data =
      if specValidationOk data then Except.ok (specProjection data)
      else Except.error (PyErr.valueError "Invalid data format") := by
  unfold _process_input_data processBody specValidationOk specProjection projList
  simp only [extractStep_eq]
  by_cases h1 : hasSubIfPresent data "market" "trend" <;>
    by_cases h2 : hasSubIfPresent data "customer" "engagement" <;>
      by_cases h3 : hasSubIfPresent data "cost" "average_cost" <;>
        simp [h1, h2, h3, List.append_assoc]

/-- C6 — The normalizer is permissive: for every Snapshot,
`_process_input_data` projects exactly the subset of
`{market, customer, cost}` entries that are present into the corresponding
Features fields, requires no source, adds no defaults for absent sources, and
fails with `ValueError` if and only if some present source payload lacks its
expected sub-field. -/
theorem normalizer_permissive_projection (data : List (String × PyDict)) :
    _process_input_data data =
      if specValidationOk data then Except.ok (specProjection data)
      else Except.error (PyErr.valueError "Invalid data format") :=
  process_eq_spec data

/-- Re-normalizing the Snapshot derived from any projected Features set gives
back that Features set. -/
theorem roundtrip_projList (m c k : Option Json) :
    _process_input_data (normalize_to_snapshot (projList m c k)) =
      Except.ok (projList m c k) := by
  rcases m with _ | a <;> rcases c with _ | b <;> rcases d : k with _ | v <;> rfl

/-- C8 — Normalizer idempotence: for every Snapshot on which
`_process_input_data` succeeds, converting the resulting Features back into a
Snapshot and normalizing again yields the same Features. -/
theorem normalizer_idempotent (data : List (String × PyDict))
    (feats : List (String × Json))
    (h : _process_input_data data = Except.ok feats) :
    _process_input_data (normalize_to_snapshot feats) = Except.ok feats := by
  have hs := process_eq_spec data
  rw [h] at hs
  by_cases hv : specValidationOk data
  · rw [if_pos hv] at hs
    have hfeats : feats = specProjection data := (Except.ok.injEq _ _).mp hs
    rw [hfeats]
    exact roundtrip_projList _ _ _
  · rw [if_neg hv] at hs
    exact absurd hs (by simp)

/-- C8 witness: a one-source Snapshot normalizes, and re-normalizing its
Features-derived Snapshot is stable. -/
theorem normalizer_idempotent_witness :
    _process_input_data [("market", [("trend", Json.str "up")])] =
      Except.ok [("market_trend", Json.str "up")] ∧
    _process_input_data
        (normalize_to_snapshot [("market_trend", Json.str "up")]) =
      Except.ok [("market_trend", Json.str "up")] :=
  ⟨rfl, normalizer_idempotent [("market", [("trend", Json.str "up")])]
    [("market_trend", Json.str "up")] rfl⟩

/-- A 200 response whose record builds on the first attempt ends the loop at
once with that record and a single external call, for any retry budget. -/
theorem fetchGo_first_success (r b : Nat)
    (extract : String → Json → Except PyErr PyDict) (env : Nat → HttpAttempt)
    (now : String) (data : Json) (record : PyDict) (fuel : Nat)
    (h0 : env 0 = .resp 200 (.ok data)) (hx : extract now data = .ok record) :
    fetchGo r b extract env now 0 (fuel + 1) = (some record, [.call]) := by
  simp [fetchGo, h0, hx]

/-- C5 — For every source fetcher, if the first attempt receives HTTP 200
with a body that builds the expected record, the fetcher performs exactly one
external call and returns that canonical record; no further attempts are
made. -/
theorem first_success_single_call (s : Source) (env : Nat → HttpAttempt)
    (now : String) (data : Json) (record : PyDict)
    (h0 : env 0 = .resp 200 (.ok data))
    (hx : sourceExtract s now data = .ok record) :
    fetchOf s env now = (some record, [.call]) ∧
    countCalls (fetchOf s env now).2 = 1 ∧
    finalOutcome (fetchOf s env now) = .success record := by
  have hf : fetchOf s env now = (some record, [.call]) := by
    cases s <;> exact fetchGo_first_success 3 1 _ env now data record 2 h0 hx
  exact ⟨hf, by rw [hf]; rfl, by rw [hf]; rfl⟩

/-- C5 witness: one 200 market response, one call, the canonical record. -/
theorem first_success_single_call_witness :
    get_market_data
        (fun _ => .resp 200 (.ok (.obj [("trend", Json.str "up"), ("volume", Json.num 5)])))
        "t" =
      (some [("market_trend", Json.str "up"), ("volume", Json.num 5),
             ("timestamp", Json.str "t")], [.call]) :=
  (first_success_single_call .market _ "t"
    (.obj [("trend", .str "up"), ("volume", .num 5)]) _ rfl rfl).1

/-- C4 — For every source fetcher, if every attempt receives a non-200
response, the fetcher performs exactly `retries = 3` external calls, returns
`None`, and its spec-side final outcome is `Failure(BadStatus)` carrying the
last observed status code. -/
theorem all_bad_status_exhausts_attempts (s : Source) (env : Nat → HttpAttempt)
    (now : String) (c0 c1 c2 : Nat) (b0 b1 b2 : Except String Json)
    (h0 : env 0 = .resp c0 b0) (hn0 : c0 ≠ 200)
    (h1 : env 1 = .resp c1 b1) (hn1 : c1 ≠ 200)
    (h2 : env 2 = .resp c2 b2) (hn2 : c2 ≠ 200) :
    fetchOf s env now =
      (none, [.call, .badStatus c0, .call, .badStatus c1, .call, .badStatus c2]) ∧
    countCalls (fetchOf s env now).2 = 3 ∧
    finalOutcome (fetchOf s env now) = .failure (some (.badStatus c2)) := by
  have hf : ∀ extract, fetchGo 3 1 extract env now 0 3 =
      (none, [.call, .badStatus c0, .call, .badStatus c1, .call, .badStatus c2]) := by
    intro extract
    simp [fetchGo, h0, h1, h2, hn0, hn1, hn2]
  have hg : fetchOf s env now =
      (none, [.call, .badStatus c0, .call, .badStatus c1, .call, .badStatus c2]) := by
    cases s <;> exact hf _
  exact ⟨hg, by rw [hg]; rfl, by rw [hg]; rfl⟩

/-- C4 witness: three 503 responses, three calls, `None` returned. -/
theorem all_bad_status_exhausts_attempts_witness :
    get_cost_data (fun _ => .resp 503 (.error "gateway")) "t" =
      (none, [.call, .badStatus 503, .call, .badStatus 503, .call, .badStatus 503]) :=
  (all_bad_status_exhausts_attempts .cost _ "t" 503 503 503 _ _ _
    rfl (by decide) rfl (by decide) rfl (by decide)).1

/-- C3 — For every source fetcher, a missing-field error on a 200 response is
recorded as the caught `KeyError` of that field, whose spec-side
classification is `Malformed`; it does not become that attempt's success, and
control passes to the remaining retry attempts. -/
theorem missing_field_classified_malformed (s : Source) (env : Nat → HttpAttempt)
    (now : String) (data : Json) (k : String)
    (h0 : env 0 = .resp 200 (.ok data))
    (hx : sourceExtract s now data = .error (.keyError k)) :
    (fetchOf s env now).2.take 2 = [.call, .exceptionCaught (.keyError k)] ∧
    eventKind (.exceptionCaught (.keyError k)) = some (.malformed k) ∧
    (fetchOf s env now).1 = (fetchGo 3 1 (sourceExtract s) env now 1 2).1 := by
  have hg : fetchOf s env now =
      ((fetchGo 3 1 (sourceExtract s) env now 1 2).1,
        .call :: .exceptionCaught (.keyError k) :: .sleep 1 ::
          (fetchGo 3 1 (sourceExtract s) env now 1 2).2) := by
    cases s <;>
      (simp [sourceExtract] at hx; simp [fetchOf, get_market_data, get_customer_behavior,
        get_cost_data, retries, backoff_factor, fetchGo, exceptEvents, h0, hx, sourceExtract])
  exact ⟨by rw [hg]; rfl, rfl, by rw [hg]⟩

/-- C3 witness: a 200 market body without `trend` is caught as
`KeyError("trend")` and classified `Malformed`. -/
theorem missing_field_classified_malformed_witness :
    (get_market_data (fun _ => .resp 200 (.ok (.obj [("volume", Json.num 1)]))) "t").2.take 2 =
      [.call, .exceptionCaught (.keyError "trend")] ∧
    eventKind (.exceptionCaught (.keyError "trend")) = some (.malformed "trend") :=
  ⟨(missing_field_classified_malformed .market
      (fun _ => .resp 200 (.ok (.obj [("volume", Json.num 1)]))) "t"
      (.obj [("volume", .num 1)]) "trend" rfl rfl).1,
   (missing_field_classified_malformed .market
      (fun _ => .resp 200 (.ok (.obj [("volume", Json.num 1)]))) "t"
      (.obj [("volume", .num 1)]) "trend" rfl rfl).2.1⟩

/-- The trace of every run of the retry loop, over any environment, is
exactly the amended backoff schedule: one call per attempt, a sleep of
`b * 2 ^ i` after (and only after) an exception-failing non-final attempt
`i`, no sleep after a bad-status attempt, and termination on success. -/
theorem fetchGo_trace_eq_specSchedule (r b : Nat)
    (extract : String → Json → Except PyErr PyDict)
    (env : Nat → HttpAttempt) (now : String) :
    ∀ (fuel i : Nat),
      (fetchGo r b extract env now i fuel).2 = specSchedule r b extract env now i fuel := by
  intro fuel
  induction fuel with
  | zero => intro i; rfl
  | succ n ih =>
    intro i
    cases he : env i with
    | err m =>
      by_cases hlt : i < r - 1 <;>
        simp [fetchGo, specSchedule, attemptOutcome, he, exceptEvents, hlt, ih (i + 1)]
    | resp c b2 =>
      by_cases hc : c = 200
      · subst hc
        cases hb : b2 with
        | error m =>
          by_cases hlt : i < r - 1 <;>
            simp [fetchGo, specSchedule, attemptOutcome, he, hb, exceptEvents, hlt, ih (i + 1)]
        | ok data =>
          cases hx : extract now data with
          | ok record =>
            simp [fetchGo, specSchedule, attemptOutcome, he, hb, hx]
          | error e =>
            by_cases hlt : i < r - 1 <;>
              simp [fetchGo, specSchedule, attemptOutcome, he, hb, hx, exceptEvents, hlt,
                ih (i + 1)]
      · simp [fetchGo, specSchedule, attemptOutcome, he, hc, ih (i + 1)]

/-- C2 (amended) — In every run of every source fetcher, the backoff sleep
occurs exactly after the exception-failing non-final attempts (transport
errors, unparseable or field-deficient 200 bodies), with duration exactly
`backoff_factor * 2 ^ i` for attempt `i`: the whole trace equals the amended
schedule for arbitrary environments, three transport failures give delays 1
and 2 with none before the first attempt, and runs whose every attempt has a
non-200 status never sleep at all. -/
theorem backoff_only_on_exceptions :
    (∀ (s : Source) (env : Nat → HttpAttempt) (now : String),
      (fetchOf s env now).2 = specSchedule 3 1 (sourceExtract s) env now 0 3) ∧
    (∀ (s : Source) (now : String) (m : Nat → String),
      fetchOf s (fun i => .err (m i)) now =
        (none, [.call, .exceptionCaught (.requestError (m 0)), .sleep 1,
                .call, .exceptionCaught (.requestError (m 1)), .sleep 2,
                .call, .exceptionCaught (.requestError (m 2))])) ∧
    (∀ (s : Source) (env : Nat → HttpAttempt) (now : String),
      (∀ i, isNon200 (env i) = true) → noSleep (fetchOf s env now).2 = true) := by
  refine ⟨?_, ?_, ?_⟩
  · intro s env now
    cases s <;> exact fetchGo_trace_eq_specSchedule 3 1 _ env now 3 0
  · intro s now m
    cases s <;> rfl
  · intro s env now h
    have step : ∀ (extract : String → Json → Except PyErr PyDict) (fuel i : Nat),
        noSleep (fetchGo 3 1 extract env now i fuel).2 = true := by
      intro extract fuel
      induction fuel with
      | zero => intro i; rfl
      | succ n ih =>
        intro i
        cases he : env i with
        | err m =>
          have := h i
          rw [he] at this
          simp [isNon200] at this
        | resp c b =>
          have hc : ¬ c = 200 := by
            have := h i
            rw [he] at this
            simpa [isNon200] using this
          simp [fetchGo, he, hc, noSleep]
          exact ih (i + 1)
    cases s <;> exact step _ 3 0

/-- C2 witness: mixed runs follow the schedule — a field-deficient 200 body
at attempt 0 sleeps 1, a transport error at attempt 1 after a bad status
sleeps exactly 2, bad-status attempts never sleep; plus the uniform
transport-failure delays 1 and 2 and an all-non-200 run with no sleep. -/
theorem backoff_only_on_exceptions_witness :
    (get_market_data envFieldThenBad "t").2 =
      [.call, .exceptionCaught (.keyError "trend"), .sleep 1,
       .call, .badStatus 500,
       .call, .exceptionCaught (.jsonDecodeError "bad json")] ∧
    (get_market_data envBadThenTimeout "t").2 =
      [.call, .badStatus 500,
       .call, .exceptionCaught (.requestError "timeout"), .sleep 2,
       .call, .badStatus 502] ∧
    get_customer_behavior (fun _ => .err "boom") "t" =
      (none, [.call, .exceptionCaught (.requestError "boom"), .sleep 1,
              .call, .exceptionCaught (.requestError "boom"), .sleep 2,
              .call, .exceptionCaught (.requestError "boom")]) ∧
    noSleep (get_market_data (fun _ => .resp 500 (.error "x")) "t").2 = true :=
  ⟨(backoff_only_on_exceptions.1 .market envFieldThenBad "t").trans rfl,
   (backoff_only_on_exceptions.1 .market envBadThenTimeout "t").trans rfl,
   backoff_only_on_exceptions.2.1 .customer "t" (fun _ => "boom"),
   backoff_only_on_exceptions.2.2 .market (fun _ => .resp 500 (.error "x")) "t"
     (fun _ => rfl)⟩

/-- C2 counterexample — with every attempt answering status 500, attempts 0
and 1 fail non-finally yet the fetcher records no sleep at all, contradicting
the claim that a failed non-final bad-status attempt suspends for
`backoff_factor * 2 ^ i`. -/
theorem bad_status_retries_without_sleep :
    get_market_data (fun _ => .resp 500 (.error "boom")) "t" =
      (none, [.call, .badStatus 500, .call, .badStatus 500, .call, .badStatus 500]) ∧
    noSleep (get_market_data (fun _ => .resp 500 (.error "boom")) "t").2 = true ∧
    FetchEvent.sleep 1 ∉ (get_market_data (fun _ => .resp 500 (.error "boom")) "t").2 := by
  refine ⟨rfl, rfl, by decide⟩

/-- The mean the cost API body of the end-to-end run produces. -/
theorem mean_costs_20 :
    npMean (Json.arr [.num 10, .num 20, .num 30]) = Except.ok 20 := by
  simp [npMean, asNums]
  norm_num

/-- C1 — In the end-to-end run (market up/1000, customer timing out
throughout, costs averaging 20) the Snapshot holds exactly the market and
cost entries with averageCost 20 as the claim says, but normalization then
raises `ValueError("Invalid data format")` instead of producing Features:
the collector stores the trend under key `market_trend` while
`_process_input_data` reads `data['market']['trend']`. -/
theorem end_to_end_features_step_raises :
    (combined_data envMarketUp envCustomerTimeout envCostStable "T").map Prod.fst =
      ["market", "cost"] ∧
    (combined_data envMarketUp envCustomerTimeout envCostStable "T").lookup "market" =
      some [("market_trend", .str "up"), ("volume", .num 1000), ("timestamp", .str "T")] ∧
    subField (combined_data envMarketUp envCustomerTimeout envCostStable "T")
        "cost" "average_cost" = some (.num 20) ∧
    _process_input_data (combined_data envMarketUp envCustomerTimeout envCostStable "T") =
      Except.error (.valueError "Invalid data format") := by
  refine ⟨rfl, rfl, ?_, rfl⟩
  show some (Json.num _) = some (Json.num 20)
  have h20 : npMean (Json.arr [.num 10, .num 20, .num 30]) = Except.ok 20 := mean_costs_20
  simp [npMean, asNums] at h20
  simp [h20]

/-- Calls recorded in a concatenation add up. -/
theorem countCalls_append (l1 l2 : List FetchEvent) :
    countCalls (l1 ++ l2) = countCalls l1 + countCalls l2 := by
  induction l1 with
  | nil => simp [countCalls]
  | cons e rest ih =>
    cases e <;> (simp [countCalls, ih]; try omega)

/-- The `except` handler performs no external call. -/
theorem countCalls_exceptEvents (r b i : Nat) (e : PyErr) :
    countCalls (exceptEvents r b i e) = 0 := by
  unfold exceptEvents
  split <;> rfl

/-- The retry loop performs at most one external call per unit of remaining
fuel. -/
theorem fetchGo_calls_le (extract : String → Json → Except PyErr PyDict)
    (env : Nat → HttpAttempt) (now : String) :
    ∀ (fuel i : Nat), countCalls (fetchGo 3 1 extract env now i fuel).2 ≤ fuel := by
  intro fuel
  induction fuel with
  | zero => intro i; exact Nat.le_refl 0
  | succ n ih =>
    intro i
    cases he : env i with
    | err m =>
      simp [fetchGo, he, countCalls, countCalls_append, countCalls_exceptEvents]
      exact ih (i + 1)
    | resp c b =>
      by_cases hc : c = 200
      · subst hc
        cases hb : b with
        | error m =>
          simp [fetchGo, he, hb, countCalls, countCalls_append, countCalls_exceptEvents]
          exact ih (i + 1)
        | ok data =>
          cases hx : extract now data with
          | ok record =>
            simp [fetchGo, he, hb, hx, countCalls]
          | error e =>
            simp [fetchGo, he, hb, hx, countCalls, countCalls_append,
              countCalls_exceptEvents]
            exact ih (i + 1)
      · simp [fetchGo, he, hc, countCalls]
        exact ih (i + 1)

/-- C10 — The three getters are total: every exception of an attempt is
caught inside the retry loop (which makes at most `retries` external calls),
so `collect_and_process` always returns the `try`-body dictionary and its
`except` branch (`return None`) is unreachable. -/
theorem collector_total_no_raise :
    (∀ (envM envC envK : Nat → HttpAttempt) (now : String),
      collect_and_process envM envC envK now = some (combined_data envM envC envK now)) ∧
    (∀ (s : Source) (env : Nat → HttpAttempt) (now : String),
      countCalls (fetchOf s env now).2 ≤ 3) := by
  refine ⟨fun _ _ _ _ => rfl, fun s env now => ?_⟩
  cases s <;> exact fetchGo_calls_le _ env now 3 0

/-- Every record a source method can build is a non-empty (truthy) dict. -/
theorem sourceExtract_ne_nil (s : Source) (now : String) (data : Json) (r : PyDict)
    (h : sourceExtract s now data = Except.ok r) : r ≠ [] := by
  cases s <;>
    simp only [sourceExtract, marketExtract, customerExtract, costExtract] at h <;>
    (repeat' split at h) <;> (try simp_all) <;> (rintro rfl; simp at h)

/-- A record returned by the retry loop is non-empty whenever the record
builder only produces non-empty records. -/
theorem fetchGo_some_ne_nil (extract : String → Json → Except PyErr PyDict)
    (hE : ∀ now data r, extract now data = Except.ok r → r ≠ [])
    (env : Nat → HttpAttempt) (now : String) :
    ∀ (fuel i : Nat) (d : PyDict), (fetchGo 3 1 extract env now i fuel).1 = some d → d ≠ [] := by
  intro fuel
  induction fuel with
  | zero => intro i d h; simp [fetchGo] at h
  | succ n ih =>
    intro i d h
    cases he : env i with
    | err m =>
      rw [fetchGo, he] at h
      exact ih (i + 1) d h
    | resp c b =>
      by_cases hc : c = 200
      · subst hc
        cases hb : b with
        | error m =>
          simp only [fetchGo, he, hb, if_pos rfl] at h
          exact ih (i + 1) d h
        | ok data =>
          cases hx : extract now data with
          | ok record =>
            simp only [fetchGo, he, hb, if_pos rfl, hx] at h
            simp at h
            subst h
            exact hE now data _ hx
          | error e =>
            simp only [fetchGo, he, hb, if_pos rfl, hx] at h
            exact ih (i + 1) d h
      · simp only [fetchGo, he, if_neg hc] at h
        exact ih (i + 1) d h

/-- A record returned by any of the three fetchers is a non-empty dict, so
the truthiness guards of `collect_and_process` admit every success. -/
theorem fetch_some_ne_nil (s : Source) (env : Nat → HttpAttempt) (now : String)
    (d : PyDict) (h : (fetchOf s env now).1 = some d) : d ≠ [] := by
  cases s with
  | market =>
    exact fetchGo_some_ne_nil marketExtract
      (fun n2 d2 r2 h2 => sourceExtract_ne_nil .market n2 d2 r2 h2) env now 3 0 d h
  | customer =>
    exact fetchGo_some_ne_nil customerExtract
      (fun n2 d2 r2 h2 => sourceExtract_ne_nil .customer n2 d2 r2 h2) env now 3 0 d h
  | cost =>
    exact fetchGo_some_ne_nil costExtract
      (fun n2 d2 r2 h2 => sourceExtract_ne_nil .cost n2 d2 r2 h2) env now 3 0 d h

/-- C7 — `collect_and_process` never takes its `except` branch, and for every
combination of per-source outcomes a Snapshot key is present if and only if
the corresponding fetcher succeeded; failed fetchers are silently omitted
(the empty Snapshot arising when all three fail). -/
theorem snapshot_key_iff_fetch_success (envM envC envK : Nat → HttpAttempt) (now : String) :
    collect_and_process envM envC envK now = some (combined_data envM envC envK now) ∧
    (((combined_data envM envC envK now).lookup "market").isSome ↔
      ((get_market_data envM now).1).isSome) ∧
    (((combined_data envM envC envK now).lookup "customer").isSome ↔
      ((get_customer_behavior envC now).1).isSome) ∧
    (((combined_data envM envC envK now).lookup "cost").isSome ↔
      ((get_cost_data envK now).1).isSome) := by
  have hm2 := fetch_some_ne_nil .market envM now
  have hc2 := fetch_some_ne_nil .customer envC now
  have hk2 := fetch_some_ne_nil .cost envK now
  refine ⟨rfl, ?_, ?_, ?_⟩ <;>
  · unfold combined_data entryIf
    rcases hm : (get_market_data envM now).1 with _ | (_ | ⟨pm, dm⟩) <;>
      rcases hc : (get_customer_behavior envC now).1 with _ | (_ | ⟨pc, dc⟩) <;>
        rcases hk : (get_cost_data envK now).1 with _ | (_ | ⟨pk, dk⟩) <;>
          first
            | exact absurd rfl (hm2 _ hm)
            | exact absurd rfl (hc2 _ hc)
            | exact absurd rfl (hk2 _ hk)
            | simp [List.lookup]

/-- C9 — When all three fetchers fail, `collect_and_process` returns the
empty dictionary, not `None` and not an exception; the `__main__` block's
`if data:` test is false on that empty dict, so the run is reported as a
collection failure. -/
theorem total_failure_empty_dict_reported_failed :
    collect_and_process envAllBad envAllBad envAllBad "t" = some [] ∧
    collect_and_process envAllBad envAllBad envAllBad "t" ≠ none ∧
    mainReport (collect_and_process envAllBad envAllBad envAllBad "t") =
      "Failed to collect data" :=
  ⟨rfl, fun h => Option.noConfusion h, rfl⟩
